import Mathlib

/-!
Verification of the lunar-lander simulation core (`main.py`).

The numeric state of the lander is embedded over `ℚ`: every constant in
the program is an exact decimal, and the claims under study concern the
exact arithmetic of the update formulas.  Wall-clock reading
(`time.monotonic`) is factored out: each operation that reads the clock
in the source takes the elapsed time `dt` as an explicit argument, as
the spec itself prescribes for testability.
-/

namespace LunarLander

/-- `moon_g` constant: acceleration due to gravity on the moon. -/
def moon_g : ℚ := -1.625

/-- `main_engine_thrust` constant: thrust of main engine in newtons. -/
def main_engine_thrust : ℚ := 45000

/-- `sub_engine_thrust` constant: thrust of sub engines in newtons. -/
def sub_engine_thrust : ℚ := 45000

/-- `specific_impulse` constant, in newton seconds per kilogram. -/
def specific_impulse : ℚ := 3000

/-- `throttle_rate` constant: rate of throttle changing per second. -/
def throttle_rate : ℚ := 0.2

/-- `starting_height` constant: height the lander starts at. -/
def starting_height : ℚ := 1000

/-- `safe_landing_velocity` constant, in metres per second. -/
def safe_landing_velocity : ℚ := 3

/-- The mutable record of `LanderClass`, with the initial values that
`LanderClass.__init__` assigns as field defaults.  The `last_tick`
timestamp is omitted: it only serves to compute the elapsed time `dt`,
which the embedded operations take as an argument. -/
@[ext]
structure LanderClass where
  fuel : ℚ := 10000
  mass : ℚ := 1000
  x : ℚ := 2500
  vx : ℚ := 0
  ax : ℚ := 0
  Fx : ℚ := 0
  y : ℚ := 2500
  vy : ℚ := 0
  ay : ℚ := 0
  Fy : ℚ := 0
  z : ℚ := starting_height
  vz : ℚ := 0
  az : ℚ := 0
  Fz : ℚ := 0
  thruster_throttle_x : ℚ := 0
  thruster_throttle_y : ℚ := 0
  thruster_throttle_z : ℚ := 0
  deriving DecidableEq

/-- The state `LanderClass()` built by `__init__`. -/
def lander0 : LanderClass := {}

/-- `LanderClass.total_mass`: mass of lander including consumables. -/
def total_mass (s : LanderClass) : ℚ := s.mass + s.fuel

/-- `LanderClass.throttle_up`, with the elapsed time since the last tick
passed in as `dt`: add `dt * throttle_rate` to the main throttle, then
clip it to `1.0` from above. -/
def throttle_up (s : LanderClass) (dt : ℚ) : LanderClass :=
  let t := s.thruster_throttle_z + dt * throttle_rate
  if t ≥ 1 then { s with thruster_throttle_z := 1 }
  else { s with thruster_throttle_z := t }

/-- `LanderClass.throttle_down`, with the elapsed time since the last
tick passed in as `dt`: subtract `dt * throttle_rate` from the main
throttle, then clip it to `0.0` from below. -/
def throttle_down (s : LanderClass) (dt : ℚ) : LanderClass :=
  let t := s.thruster_throttle_z - dt * throttle_rate
  if t ≤ 0 then { s with thruster_throttle_z := 0 }
  else { s with thruster_throttle_z := t }

/-- `LanderClass.physics_tick`, with the elapsed time since the last
tick passed in as `dt`.  If there is fuel, each force is the engine
thrust rating times its throttle and fuel is consumed as
`(Fz + Fx + Fy) * dt / specific_impulse`; otherwise all forces are `0`.
Then each axis is integrated by semi-implicit Euler (velocity first,
position from the updated velocity), gravity added on the z axis. -/
def physics_tick (s : LanderClass) (dt : ℚ) : LanderClass :=
  let s1 :=
    if s.fuel > 0 then
      let Fz := main_engine_thrust * s.thruster_throttle_z
      let Fx := sub_engine_thrust * s.thruster_throttle_x
      let Fy := sub_engine_thrust * s.thruster_throttle_y
      { s with Fz := Fz, Fx := Fx, Fy := Fy,
               fuel := s.fuel - (Fz + Fx + Fy) * dt / specific_impulse }
    else
      { s with Fx := 0, Fy := 0, Fz := 0 }
  let ax := s1.Fx / total_mass s1
  let vx := s1.vx + ax * dt
  let x := s1.x + vx * dt
  let ay := s1.Fy / total_mass s1
  let vy := s1.vy + ay * dt
  let y := s1.y + vy * dt
  let az := s1.Fz / total_mass s1 + moon_g
  let vz := s1.vz + az * dt
  let z := s1.z + vz * dt
  { s1 with vx := vx, x := x, vy := vy, y := y, vz := vz, z := z }

/-- `LanderClass.bounds_check`: clamp `z` to `starting_height` (and, in
that case, `vz` from above `2.0` down to `1.0`), then clamp `x` and `y`
each to `[50, 4950]`. -/
def bounds_check (s : LanderClass) : LanderClass :=
  let s1 :=
    if s.z > starting_height then
      let sz := { s with z := starting_height }
      if s.vz > 2 then { sz with vz := 1 } else sz
    else s
  let s2 :=
    if s1.x > 4950 then { s1 with x := 4950 }
    else if s1.x < 50 then { s1 with x := 50 }
    else s1
  let s3 :=
    if s2.y > 4950 then { s2 with y := 4950 }
    else if s2.y < 50 then { s2 with y := 50 }
    else s2
  s3

/-- The per-tick control inputs: the three throttle settings written by
`check_keys` before `physics_tick` runs, and the elapsed time of the
tick. -/
structure TickInput where
  tx : ℚ
  ty : ℚ
  tz : ℚ
  dt : ℚ
  deriving DecidableEq

/-- Write the throttle settings of a tick into the state, as
`check_keys` does before the physics update. -/
def set_throttles (s : LanderClass) (i : TickInput) : LanderClass :=
  { s with thruster_throttle_x := i.tx, thruster_throttle_y := i.ty,
           thruster_throttle_z := i.tz }

/-- One iteration of the game loop body acting on the physics state:
set the throttles from the input, then run `physics_tick` with the
elapsed time of the tick. -/
def tick (s : LanderClass) (i : TickInput) : LanderClass :=
  physics_tick (set_throttles s i) i.dt

/-- A whole sequence of game-loop iterations. -/
def run (s : LanderClass) (l : List TickInput) : LanderClass :=
  l.foldl tick s

/-- The radicand of `LanderClass.total_velocity`:
`vx**2 + vy**2 + vz**2`. -/
def total_velocity_sq (s : LanderClass) : ℚ :=
  s.vx ^ 2 + s.vy ^ 2 + s.vz ^ 2

/-- The branch condition of `ending_screen`:
`lander.total_velocity() <= safe_landing_velocity` classifies the
touchdown as a successful landing (square root taken over the reals, as
`np.sqrt` computes it). -/
def landed (s : LanderClass) : Prop :=
  Real.sqrt ((total_velocity_sq s : ℚ) : ℝ) ≤ ((safe_landing_velocity : ℚ) : ℝ)

/-- A touchdown state with total speed exactly 2.0 metres per second. -/
def touchdown_slow : LanderClass := { lander0 with z := 0, vz := -2 }

/-- A touchdown state with total speed exactly 4.5 metres per second. -/
def touchdown_fast : LanderClass := { lander0 with z := 0, vz := -4.5 }

/-! ## Helper lemmas about `physics_tick` and `run` -/

lemma physics_tick_fuel_of_pos (s : LanderClass) (dt : ℚ) (h : 0 < s.fuel) :
    (physics_tick s dt).fuel =
      s.fuel - (main_engine_thrust * s.thruster_throttle_z
        + sub_engine_thrust * s.thruster_throttle_x
        + sub_engine_thrust * s.thruster_throttle_y) * dt / specific_impulse := by
  simp [physics_tick, h]

lemma physics_tick_fuel_of_nonpos (s : LanderClass) (dt : ℚ) (h : ¬ 0 < s.fuel) :
    (physics_tick s dt).fuel = s.fuel := by
  simp [physics_tick, h]

lemma physics_tick_forces_of_nonpos (s : LanderClass) (dt : ℚ) (h : ¬ 0 < s.fuel) :
    (physics_tick s dt).Fx = 0 ∧ (physics_tick s dt).Fy = 0 ∧
    (physics_tick s dt).Fz = 0 := by
  simp [physics_tick, h]

lemma physics_tick_forces_of_pos (s : LanderClass) (dt : ℚ) (h : 0 < s.fuel) :
    (physics_tick s dt).Fz = main_engine_thrust * s.thruster_throttle_z ∧
    (physics_tick s dt).Fx = sub_engine_thrust * s.thruster_throttle_x ∧
    (physics_tick s dt).Fy = sub_engine_thrust * s.thruster_throttle_y := by
  simp [physics_tick, h]

lemma tick_fuel_le (s : LanderClass) (i : TickInput)
    (hdt : 0 ≤ i.dt) (hsum : 0 ≤ i.tx + i.ty + i.tz) :
    (tick s i).fuel ≤ s.fuel := by
  by_cases h : 0 < s.fuel
  · have := physics_tick_fuel_of_pos (set_throttles s i) i.dt
      (by simpa [set_throttles] using h)
    rw [tick, this]
    simp only [set_throttles]
    rw [main_engine_thrust, sub_engine_thrust, specific_impulse]
    nlinarith [mul_nonneg (mul_nonneg (by norm_num : (0:ℚ) ≤ 45000) hsum) hdt]
  · have := physics_tick_fuel_of_nonpos (set_throttles s i) i.dt
      (by simpa [set_throttles] using h)
    rw [tick, this]
    simp [set_throttles]

lemma run_fuel_le (s : LanderClass) (l : List TickInput)
    (h : ∀ i ∈ l, 0 ≤ i.dt ∧ 0 ≤ i.tx + i.ty + i.tz) :
    (run s l).fuel ≤ s.fuel := by
  induction l generalizing s with
  | nil => simp [run]
  | cons i l ih =>
      have h1 := h i (by simp)
      have h2 : (run (tick s i) l).fuel ≤ (tick s i).fuel :=
        ih (tick s i) (fun j hj => h j (by simp [hj]))
      have h3 := tick_fuel_le s i h1.1 h1.2
      calc (run s (i :: l)).fuel = (run (tick s i) l).fuel := by simp [run]
        _ ≤ (tick s i).fuel := h2
        _ ≤ s.fuel := h3

lemma tick_fuel_of_nonpos (s : LanderClass) (i : TickInput) (h : s.fuel ≤ 0) :
    (tick s i).fuel = s.fuel := by
  have := physics_tick_fuel_of_nonpos (set_throttles s i) i.dt
    (by simp [set_throttles]; linarith)
  rw [tick, this]
  simp [set_throttles]

lemma run_fuel_of_nonpos (s : LanderClass) (l : List TickInput) (h : s.fuel ≤ 0) :
    (run s l).fuel = s.fuel := by
  induction l generalizing s with
  | nil => simp [run]
  | cons i l ih =>
      have h1 := tick_fuel_of_nonpos s i h
      have h2 := ih (tick s i) (by rw [h1]; exact h)
      calc (run s (i :: l)).fuel = (run (tick s i) l).fuel := by simp [run]
        _ = (tick s i).fuel := h2
        _ = s.fuel := h1

lemma physics_tick_lander0_vz (dt : ℚ) :
    (physics_tick lander0 dt).vz = moon_g * dt := by
  norm_num [physics_tick, lander0, total_mass, main_engine_thrust, sub_engine_thrust,
    specific_impulse, moon_g]

/-! ## Helper lemmas about `bounds_check` -/

lemma bounds_check_z (s : LanderClass) :
    (bounds_check s).z = min s.z starting_height := by
  simp only [bounds_check]
  rw [min_def]
  split_ifs <;> simp_all <;> linarith

lemma bounds_check_vz (s : LanderClass) :
    (bounds_check s).vz = if starting_height < s.z ∧ 2 < s.vz then 1 else s.vz := by
  simp only [bounds_check]
  split_ifs <;> simp_all

lemma bounds_check_x (s : LanderClass) :
    (bounds_check s).x = min 4950 (max 50 s.x) := by
  simp only [bounds_check]
  rw [min_def, max_def]
  split_ifs <;> simp_all <;> linarith

lemma bounds_check_y (s : LanderClass) :
    (bounds_check s).y = min 4950 (max 50 s.y) := by
  simp only [bounds_check]
  rw [min_def, max_def]
  split_ifs <;> simp_all <;> linarith

lemma bounds_check_rest (s : LanderClass) :
    (bounds_check s).vx = s.vx ∧ (bounds_check s).vy = s.vy ∧
    (bounds_check s).fuel = s.fuel ∧ (bounds_check s).mass = s.mass ∧
    (bounds_check s).ax = s.ax ∧ (bounds_check s).ay = s.ay ∧
    (bounds_check s).az = s.az ∧ (bounds_check s).Fx = s.Fx ∧
    (bounds_check s).Fy = s.Fy ∧ (bounds_check s).Fz = s.Fz ∧
    (bounds_check s).thruster_throttle_x = s.thruster_throttle_x ∧
    (bounds_check s).thruster_throttle_y = s.thruster_throttle_y ∧
    (bounds_check s).thruster_throttle_z = s.thruster_throttle_z := by
  simp only [bounds_check]
  split_ifs <;> simp_all

lemma clamp_idem (a : ℚ) :
    min 4950 (max 50 (min 4950 (max 50 a))) = min 4950 (max 50 a) := by
  simp [min_def, max_def]
  split_ifs <;> linarith

lemma bounds_check_not_high (s : LanderClass) :
    ¬ starting_height < (bounds_check s).z := by
  rw [bounds_check_z]
  exact not_lt.mpr (min_le_right _ _)

/-! ## Helper lemmas about the throttle ramp -/

lemma throttle_up_val (s : LanderClass) (dt : ℚ) :
    (throttle_up s dt).thruster_throttle_z
      = min 1 (s.thruster_throttle_z + dt * throttle_rate) := by
  simp only [throttle_up]
  rw [min_def]
  split_ifs <;> simp_all

lemma throttle_down_val (s : LanderClass) (dt : ℚ) :
    (throttle_down s dt).thruster_throttle_z
      = max 0 (s.thruster_throttle_z - dt * throttle_rate) := by
  simp only [throttle_down]
  rw [max_def]
  split_ifs <;> simp_all <;> linarith

lemma throttle_up_iter (dt : ℚ) (hdt : 0 ≤ dt) (s : LanderClass)
    (h1 : s.thruster_throttle_z ≤ 1) (n : ℕ) :
    ((fun s => throttle_up s dt)^[n] s).thruster_throttle_z
      = min 1 (s.thruster_throttle_z + n * (dt * throttle_rate)) := by
  have hd : 0 ≤ dt * throttle_rate := by
    rw [throttle_rate]; positivity
  induction n generalizing s with
  | zero => simpa using (min_eq_right h1).symm
  | succ n ih =>
      rw [Function.iterate_succ_apply, ih (throttle_up s dt) (by
        rw [throttle_up_val]; exact min_le_left _ _), throttle_up_val]
      have hnd : 0 ≤ (n : ℚ) * (dt * throttle_rate) := by positivity
      rcases le_total (s.thruster_throttle_z + dt * throttle_rate) 1 with h | h
      · rw [min_eq_right h]
        push_cast
        ring_nf
      · rw [min_eq_left h]
        rw [min_eq_left (by linarith), min_eq_left ?h2]
        push_cast
        nlinarith

lemma throttle_down_iter (dt : ℚ) (hdt : 0 ≤ dt) (s : LanderClass)
    (h0 : 0 ≤ s.thruster_throttle_z) (n : ℕ) :
    ((fun s => throttle_down s dt)^[n] s).thruster_throttle_z
      = max 0 (s.thruster_throttle_z - n * (dt * throttle_rate)) := by
  have hd : 0 ≤ dt * throttle_rate := by
    rw [throttle_rate]; positivity
  induction n generalizing s with
  | zero => simpa using (max_eq_right h0).symm
  | succ n ih =>
      rw [Function.iterate_succ_apply, ih (throttle_down s dt) (by
        rw [throttle_down_val]; exact le_max_left _ _), throttle_down_val]
      have hnd : 0 ≤ (n : ℚ) * (dt * throttle_rate) := by positivity
      rcases le_total 0 (s.thruster_throttle_z - dt * throttle_rate) with h | h
      · rw [max_eq_right h]
        push_cast
        ring_nf
      · rw [max_eq_left h]
        rw [max_eq_left (by linarith), max_eq_left ?h2]
        push_cast
        nlinarith

lemma throttle_up_reaches (dt : ℚ) (hdt : 0 < dt) (s : LanderClass)
    (h1 : s.thruster_throttle_z ≤ 1) :
    ∃ n : ℕ, ∀ m : ℕ, n ≤ m →
      ((fun s => throttle_up s dt)^[m] s).thruster_throttle_z = 1 := by
  have hd : 0 < dt * throttle_rate := by
    rw [throttle_rate]; positivity
  refine ⟨⌈(1 - s.thruster_throttle_z) / (dt * throttle_rate)⌉₊, fun m hm => ?_⟩
  rw [throttle_up_iter dt hdt.le s h1 m]
  apply min_eq_left
  have h2 : (1 - s.thruster_throttle_z) / (dt * throttle_rate)
      ≤ (⌈(1 - s.thruster_throttle_z) / (dt * throttle_rate)⌉₊ : ℚ) := Nat.le_ceil _
  have h3 : ((⌈(1 - s.thruster_throttle_z) / (dt * throttle_rate)⌉₊ : ℚ)) ≤ (m : ℚ) :=
    Nat.cast_le.mpr hm
  have h4 := (div_le_iff₀ hd).mp (h2.trans h3)
  linarith

lemma throttle_down_reaches (dt : ℚ) (hdt : 0 < dt) (s : LanderClass)
    (h0 : 0 ≤ s.thruster_throttle_z) :
    ∃ n : ℕ, ∀ m : ℕ, n ≤ m →
      ((fun s => throttle_down s dt)^[m] s).thruster_throttle_z = 0 := by
  have hd : 0 < dt * throttle_rate := by
    rw [throttle_rate]; positivity
  refine ⟨⌈s.thruster_throttle_z / (dt * throttle_rate)⌉₊, fun m hm => ?_⟩
  rw [throttle_down_iter dt hdt.le s h0 m]
  apply max_eq_left
  have h2 : s.thruster_throttle_z / (dt * throttle_rate)
      ≤ (⌈s.thruster_throttle_z / (dt * throttle_rate)⌉₊ : ℚ) := Nat.le_ceil _
  have h3 : ((⌈s.thruster_throttle_z / (dt * throttle_rate)⌉₊ : ℚ)) ≤ (m : ℚ) :=
    Nat.cast_le.mpr hm
  have h4 := (div_le_iff₀ hd).mp (h2.trans h3)
  linarith

/-! ## Helper lemma about the landing classification -/

lemma landed_iff (s : LanderClass) :
    landed s ↔ total_velocity_sq s ≤ safe_landing_velocity ^ 2 := by
  unfold landed
  rw [Real.sqrt_le_left (by norm_num [safe_landing_velocity])]
  exact_mod_cast Iff.rfl

/-! ## Claim theorems -/

/-- C1 (amended): along any sequence of game-loop steps whose elapsed
times are non-negative and whose throttle combinations each have a
non-negative signed sum, the fuel mass is non-increasing from step to
step (stated for an arbitrary split of the trajectory).  The original
claim also asserted this for arbitrary throttle combinations, and that
fuel is never negative; both parts fail on the code (see the
counterexample). -/
theorem fuel_nonincreasing (s : LanderClass) (l1 l2 : List TickInput)
    (h : ∀ i ∈ l2, 0 ≤ i.dt ∧ 0 ≤ i.tx + i.ty + i.tz) :
    (run s (l1 ++ l2)).fuel ≤ (run s l1).fuel := by
  rw [run, List.foldl_append]
  exact run_fuel_le _ l2 h

/-- Witness for the amended C1 at a concrete trajectory. -/
theorem fuel_nonincreasing_witness :
    (∀ i ∈ [TickInput.mk 0 0 1 1], 0 ≤ i.dt ∧ 0 ≤ i.tx + i.ty + i.tz) ∧
    (run lander0 ([] ++ [TickInput.mk 0 0 1 1])).fuel ≤ (run lander0 []).fuel :=
  ⟨by norm_num, fuel_nonincreasing lander0 [] [TickInput.mk 0 0 1 1] (by norm_num)⟩

/-- C1 counterexample: from the initial state, one step with the x
throttle at `-1` strictly increases the fuel mass, and one step with
the main throttle at `1` and elapsed time `1000` leaves the fuel mass
strictly negative.  Both parts of the claim fail. -/
theorem fuel_monotonicity_cex :
    lander0.fuel < (tick lander0 (TickInput.mk (-1) 0 0 1)).fuel ∧
    (tick lander0 (TickInput.mk 0 0 1 1000)).fuel < 0 := by
  constructor <;>
    norm_num [tick, physics_tick, set_throttles, total_mass, lander0,
      main_engine_thrust, sub_engine_thrust, specific_impulse, moon_g]

/-- C2 (amended): `physics_tick` performs no clamping of a negative
elapsed time: the integration formulas are applied with the negative
`dt` as given, so from the initial state the vertical velocity becomes
`moon_g * dt`, which differs from its previous value.  (In the program
`dt` is computed from `time.monotonic`, so a negative `dt` never
actually occurs.)  The original claim that positions and velocities are
left unchanged for `dt < 0` fails on the code. -/
theorem negative_dt_propagates (dt : ℚ) (h : dt < 0) :
    (physics_tick lander0 dt).vz = moon_g * dt ∧
    (physics_tick lander0 dt).vz ≠ lander0.vz := by
  refine ⟨physics_tick_lander0_vz dt, ?_⟩
  rw [physics_tick_lander0_vz]
  simpa [lander0] using
    mul_ne_zero (show moon_g ≠ 0 by norm_num [moon_g]) (ne_of_lt h)

/-- Witness for the amended C2 at `dt = -1`. -/
theorem negative_dt_propagates_witness :
    (-1 : ℚ) < 0 ∧
    ((physics_tick lander0 (-1)).vz = moon_g * (-1) ∧
      (physics_tick lander0 (-1)).vz ≠ lander0.vz) :=
  ⟨by norm_num, negative_dt_propagates (-1) (by norm_num)⟩

/-- C2 counterexample: a step with `dt = -1` from the initial state
changes both the vertical velocity and the height, rather than leaving
positions and velocities unchanged. -/
theorem negative_dt_cex :
    (physics_tick lander0 (-1)).vz ≠ lander0.vz ∧
    (physics_tick lander0 (-1)).z ≠ lander0.z := by
  constructor <;>
    norm_num [physics_tick, total_mass, lander0, main_engine_thrust,
      sub_engine_thrust, specific_impulse, moon_g]

/-- C3: with fuel remaining and any `dt ≥ 0`, one physics step sets
each force to the rated thrust of that engine times its throttle, and
decreases fuel by exactly the signed sum of the three forces times
`dt / specific_impulse`. -/
theorem physics_tick_forces_fuel (s : LanderClass) (dt : ℚ)
    (hf : 0 < s.fuel) (hdt : 0 ≤ dt) :
    (physics_tick s dt).Fz = main_engine_thrust * s.thruster_throttle_z ∧
    (physics_tick s dt).Fx = sub_engine_thrust * s.thruster_throttle_x ∧
    (physics_tick s dt).Fy = sub_engine_thrust * s.thruster_throttle_y ∧
    (physics_tick s dt).fuel = s.fuel -
      ((physics_tick s dt).Fz + (physics_tick s dt).Fx + (physics_tick s dt).Fy)
        * dt / specific_impulse := by
  obtain ⟨h1, h2, h3⟩ := physics_tick_forces_of_pos s dt hf
  refine ⟨h1, h2, h3, ?_⟩
  rw [h1, h2, h3, physics_tick_fuel_of_pos s dt hf]

/-- Witness for C3 at the initial state with `dt = 1`. -/
theorem physics_tick_forces_fuel_witness :
    0 < lander0.fuel ∧ (0 : ℚ) ≤ 1 ∧
    ((physics_tick lander0 1).Fz = main_engine_thrust * lander0.thruster_throttle_z ∧
      (physics_tick lander0 1).Fx = sub_engine_thrust * lander0.thruster_throttle_x ∧
      (physics_tick lander0 1).Fy = sub_engine_thrust * lander0.thruster_throttle_y ∧
      (physics_tick lander0 1).fuel = lander0.fuel -
        ((physics_tick lander0 1).Fz + (physics_tick lander0 1).Fx
          + (physics_tick lander0 1).Fy) * 1 / specific_impulse) :=
  ⟨by norm_num [lander0], by norm_num,
    physics_tick_forces_fuel lander0 1 (by norm_num [lander0]) (by norm_num)⟩

/-- C4: once the fuel mass is exactly `0`, every subsequent physics
step (after any further sequence of steps, with any throttle values)
sets all three force components to exactly `0`. -/
theorem thrust_cutoff (s : LanderClass) (h : s.fuel = 0)
    (l : List TickInput) (i : TickInput) :
    (tick (run s l) i).Fx = 0 ∧ (tick (run s l) i).Fy = 0 ∧
    (tick (run s l) i).Fz = 0 := by
  have hr : (run s l).fuel = 0 := by
    rw [run_fuel_of_nonpos s l (le_of_eq h), h]
  have hn : ¬ 0 < (set_throttles (run s l) i).fuel := by
    simp [set_throttles, hr]
  rw [tick]
  exact physics_tick_forces_of_nonpos _ i.dt hn

/-- Witness for C4 on a concrete exhausted state and trajectory. -/
theorem thrust_cutoff_witness :
    ({ lander0 with fuel := 0 } : LanderClass).fuel = 0 ∧
    ((tick (run { lander0 with fuel := 0 } [TickInput.mk 1 1 1 1])
        (TickInput.mk (-1) 1 1 2)).Fx = 0 ∧
      (tick (run { lander0 with fuel := 0 } [TickInput.mk 1 1 1 1])
        (TickInput.mk (-1) 1 1 2)).Fy = 0 ∧
      (tick (run { lander0 with fuel := 0 } [TickInput.mk 1 1 1 1])
        (TickInput.mk (-1) 1 1 2)).Fz = 0) :=
  ⟨rfl, thrust_cutoff { lander0 with fuel := 0 } rfl
    [TickInput.mk 1 1 1 1] (TickInput.mk (-1) 1 1 2)⟩

/-- C5: `bounds_check` clamps `z` to `starting_height` from above and,
exactly when that happened with `vz > 2.0`, sets `vz` to `1.0`; it
clamps `x` and `y` each to the interval `[50, 4950]`, with no side
effect on the horizontal velocities. -/
theorem bounds_check_behavior (s : LanderClass) :
    ((bounds_check s).z = if starting_height < s.z then starting_height else s.z) ∧
    ((bounds_check s).vz = if starting_height < s.z ∧ 2 < s.vz then 1 else s.vz) ∧
    ((bounds_check s).x = min 4950 (max 50 s.x)) ∧
    ((bounds_check s).y = min 4950 (max 50 s.y)) ∧
    ((bounds_check s).vx = s.vx) ∧ ((bounds_check s).vy = s.vy) := by
  refine ⟨?_, bounds_check_vz s, bounds_check_x s, bounds_check_y s,
    (bounds_check_rest s).1, (bounds_check_rest s).2.1⟩
  rw [bounds_check_z, min_def]
  split_ifs <;> linarith

/-- C6: `bounds_check` is idempotent: applying it twice gives the same
state as applying it once. -/
theorem bounds_check_idem (s : LanderClass) :
    bounds_check (bounds_check s) = bounds_check s := by
  have hrest := bounds_check_rest (bounds_check s)
  have hvz : (bounds_check (bounds_check s)).vz = (bounds_check s).vz := by
    rw [bounds_check_vz (bounds_check s)]
    exact if_neg (fun h => absurd h.1 (bounds_check_not_high s))
  ext
  · exact hrest.2.2.1
  · exact hrest.2.2.2.1
  · rw [bounds_check_x (bounds_check s), bounds_check_x s, clamp_idem]
  · exact hrest.1
  · exact hrest.2.2.2.2.1
  · exact hrest.2.2.2.2.2.2.2.1
  · rw [bounds_check_y (bounds_check s), bounds_check_y s, clamp_idem]
  · exact hrest.2.1
  · exact hrest.2.2.2.2.2.1
  · exact hrest.2.2.2.2.2.2.2.2.1
  · rw [bounds_check_z (bounds_check s), bounds_check_z s, min_assoc, min_self]
  · exact hvz
  · exact hrest.2.2.2.2.2.2.1
  · exact hrest.2.2.2.2.2.2.2.2.2.1
  · exact hrest.2.2.2.2.2.2.2.2.2.2.1
  · exact hrest.2.2.2.2.2.2.2.2.2.2.2.1
  · exact hrest.2.2.2.2.2.2.2.2.2.2.2.2

/-- C7: starting from a main throttle in `[0, 1]`: with any `dt ≥ 0`
one `throttle_up` or `throttle_down` keeps it in `[0, 1]`; and for any
fixed `dt > 0`, repeated `throttle_up` reaches `1.0` after finitely
many calls and stays there, while repeated `throttle_down` reaches
`0.0` and stays there. -/
theorem throttle_clipping (s : LanderClass) (dt : ℚ)
    (h0 : 0 ≤ s.thruster_throttle_z) (h1 : s.thruster_throttle_z ≤ 1) :
    (0 ≤ dt →
      0 ≤ (throttle_up s dt).thruster_throttle_z ∧
      (throttle_up s dt).thruster_throttle_z ≤ 1 ∧
      0 ≤ (throttle_down s dt).thruster_throttle_z ∧
      (throttle_down s dt).thruster_throttle_z ≤ 1) ∧
    (0 < dt → ∃ n : ℕ, ∀ m : ℕ, n ≤ m →
      ((fun s => throttle_up s dt)^[m] s).thruster_throttle_z = 1) ∧
    (0 < dt → ∃ n : ℕ, ∀ m : ℕ, n ≤ m →
      ((fun s => throttle_down s dt)^[m] s).thruster_throttle_z = 0) := by
  refine ⟨fun hdt => ?_, fun hdt => throttle_up_reaches dt hdt s h1,
    fun hdt => throttle_down_reaches dt hdt s h0⟩
  rw [throttle_up_val, throttle_down_val]
  have hd : 0 ≤ dt * throttle_rate := by
    rw [throttle_rate]; positivity
  exact ⟨le_min (by norm_num) (by linarith), min_le_left _ _,
    le_max_left _ _, max_le (by norm_num) (by linarith)⟩

/-- Witness for C7 at the initial state (main throttle `0`) with
`dt = 1`. -/
theorem throttle_clipping_witness :
    0 ≤ lander0.thruster_throttle_z ∧ lander0.thruster_throttle_z ≤ 1 ∧
    ((0 ≤ (1:ℚ) →
      0 ≤ (throttle_up lander0 1).thruster_throttle_z ∧
      (throttle_up lander0 1).thruster_throttle_z ≤ 1 ∧
      0 ≤ (throttle_down lander0 1).thruster_throttle_z ∧
      (throttle_down lander0 1).thruster_throttle_z ≤ 1) ∧
    ((0:ℚ) < 1 → ∃ n : ℕ, ∀ m : ℕ, n ≤ m →
      ((fun s => throttle_up s 1)^[m] lander0).thruster_throttle_z = 1) ∧
    ((0:ℚ) < 1 → ∃ n : ℕ, ∀ m : ℕ, n ≤ m →
      ((fun s => throttle_down s 1)^[m] lander0).thruster_throttle_z = 0)) :=
  ⟨by norm_num [lander0], by norm_num [lander0],
    throttle_clipping lander0 1 (by norm_num [lander0]) (by norm_num [lander0])⟩

/-- C8: the ending classification is the pure predicate
`total_velocity() ≤ safe_landing_velocity` on the final state,
equivalent to comparing the squared speed with the squared threshold;
a touchdown at 2.0 metres per second is classified as landed and one at
4.5 metres per second as crashed. -/
theorem landing_outcome :
    (∀ s : LanderClass, landed s ↔ total_velocity_sq s ≤ safe_landing_velocity ^ 2) ∧
    landed touchdown_slow ∧ ¬ landed touchdown_fast := by
  refine ⟨landed_iff, ?_, ?_⟩
  · rw [landed_iff]
    norm_num [total_velocity_sq, touchdown_slow, lander0, safe_landing_velocity]
  · rw [landed_iff]
    norm_num [total_velocity_sq, touchdown_fast, lander0, safe_landing_velocity]

/-- C9: with fuel remaining, `dt > 0` and a strictly negative signed
sum of the three commanded forces (for example the x throttle at `-1`
with the others at `0`), one physics step strictly increases the fuel
mass: the signed-sum consumption formula adds propellant back. -/
theorem fuel_increases_on_negative_sum (s : LanderClass) (dt : ℚ)
    (hf : 0 < s.fuel) (hdt : 0 < dt)
    (hneg : main_engine_thrust * s.thruster_throttle_z
      + sub_engine_thrust * s.thruster_throttle_x
      + sub_engine_thrust * s.thruster_throttle_y < 0) :
    s.fuel < (physics_tick s dt).fuel := by
  rw [physics_tick_fuel_of_pos s dt hf, specific_impulse]
  have h := mul_neg_of_neg_of_pos hneg hdt
  linarith

/-- Witness for C9: the initial state with the x throttle at `-1` and
`dt = 1`. -/
theorem fuel_increases_on_negative_sum_witness :
    0 < ({ lander0 with thruster_throttle_x := -1 } : LanderClass).fuel ∧
    (0:ℚ) < 1 ∧
    (main_engine_thrust * ({ lander0 with thruster_throttle_x := -1 } : LanderClass).thruster_throttle_z
      + sub_engine_thrust * ({ lander0 with thruster_throttle_x := -1 } : LanderClass).thruster_throttle_x
      + sub_engine_thrust * ({ lander0 with thruster_throttle_x := -1 } : LanderClass).thruster_throttle_y < 0) ∧
    ({ lander0 with thruster_throttle_x := -1 } : LanderClass).fuel
      < (physics_tick { lander0 with thruster_throttle_x := -1 } 1).fuel :=
  ⟨by norm_num [lander0], by norm_num,
    by norm_num [lander0, main_engine_thrust, sub_engine_thrust],
    fuel_increases_on_negative_sum { lander0 with thruster_throttle_x := -1 } 1
      (by norm_num [lander0]) (by norm_num)
      (by norm_num [lander0, main_engine_thrust, sub_engine_thrust])⟩

/-- C10: the thrust gate is `fuel > 0` and the subtraction is not
clamped, so one step whose consumption exceeds the remaining fuel
leaves the fuel mass strictly negative; and from any state with
`fuel ≤ 0`, no sequence of further steps ever modifies the fuel mass
again. -/
theorem fuel_unclamped_frozen :
    (∀ (s : LanderClass) (dt : ℚ), 0 < s.fuel →
      s.fuel * specific_impulse <
        (main_engine_thrust * s.thruster_throttle_z
          + sub_engine_thrust * s.thruster_throttle_x
          + sub_engine_thrust * s.thruster_throttle_y) * dt →
      (physics_tick s dt).fuel < 0) ∧
    (∀ (s : LanderClass), s.fuel ≤ 0 →
      ∀ l : List TickInput, (run s l).fuel = s.fuel) := by
  constructor
  · intro s dt hf hbig
    rw [physics_tick_fuel_of_pos s dt hf]
    rw [specific_impulse] at hbig ⊢
    linarith
  · intro s h l
    exact run_fuel_of_nonpos s l h

/-- Witness for C10: a full-throttle step of length `1000` from the
initial state overdraws the tank, and a state with negative fuel keeps
it unchanged over a further step. -/
theorem fuel_unclamped_frozen_witness :
    (0 < ({ lander0 with thruster_throttle_z := 1 } : LanderClass).fuel ∧
      ({ lander0 with thruster_throttle_z := 1 } : LanderClass).fuel * specific_impulse <
        (main_engine_thrust * ({ lander0 with thruster_throttle_z := 1 } : LanderClass).thruster_throttle_z
          + sub_engine_thrust * ({ lander0 with thruster_throttle_z := 1 } : LanderClass).thruster_throttle_x
          + sub_engine_thrust * ({ lander0 with thruster_throttle_z := 1 } : LanderClass).thruster_throttle_y) * 1000 ∧
      (physics_tick { lander0 with thruster_throttle_z := 1 } 1000).fuel < 0) ∧
    (({ lander0 with fuel := -14 } : LanderClass).fuel ≤ 0 ∧
      (run { lander0 with fuel := -14 } [TickInput.mk 1 1 1 1]).fuel
        = ({ lander0 with fuel := -14 } : LanderClass).fuel) :=
  ⟨⟨by norm_num [lander0], by norm_num [lander0, main_engine_thrust,
      sub_engine_thrust, specific_impulse],
    fuel_unclamped_frozen.1 { lander0 with thruster_throttle_z := 1 } 1000
      (by norm_num [lander0])
      (by norm_num [lander0, main_engine_thrust, sub_engine_thrust, specific_impulse])⟩,
    ⟨by norm_num [lander0],
      fuel_unclamped_frozen.2 { lander0 with fuel := -14 }
        (by norm_num [lander0]) [TickInput.mk 1 1 1 1]⟩⟩

end LunarLander
